import Mathlib

/-!
Shallow embedding of the NYC/California crash-data ingestion pipeline
(`backend/populator/main.py`): SQL value semantics for the staging-to-target
transform (NULLIF normalization, typed casts, PostGIS point construction),
association-list tables with the two upsert policies used by the merge
statements (ON CONFLICT DO UPDATE / DO NOTHING), the per-file staged-load
control flow with its try/finally staging-table cleanup, and the Lambda
handler dispatch.
-/

namespace NYCrashes

/-! ## SQL value semantics -/

/-- Models the SQL expression NULLIF(s, ..empty..): the empty string becomes
SQL NULL, every other string is kept. -/
def nullif (s : String) : Option String :=
  if s = "" then none else some s

/-- Digit list to number, most significant first. -/
def digitsToNat (cs : List Char) : Nat :=
  cs.foldl (fun a c => a * 10 + (c.toNat - 48)) 0

/-- A non-empty all-digit character list, parsed as a number. -/
def parseNatDigits (cs : List Char) : Option Nat :=
  if cs.isEmpty then none
  else if cs.all Char.isDigit then some (digitsToNat cs)
  else none

/-- Models the Postgres integer input syntax used by the BIGINT and INTEGER
casts in the merge statements: an optional sign followed by decimal digits.
Surrounding whitespace and range limits are not modelled; no claim depends
on them. -/
def parsePgInt (s : String) : Option Int :=
  match s.data with
  | [] => none
  | c :: rest =>
    if c = '-' then (parseNatDigits rest).map (fun n => -(n : Int))
    else if c = '+' then (parseNatDigits rest).map (fun n => (n : Int))
    else (parseNatDigits (c :: rest)).map (fun n => (n : Int))

/-- Split a character list at every dot. -/
def splitOnDot (cs : List Char) : List (List Char) :=
  cs.foldr
    (fun c acc =>
      if c = '.' then [] :: acc
      else
        match acc with
        | g :: rest => (c :: g) :: rest
        | [] => [[c]])
    [[]]

/-- Unsigned decimal literal: digits with an optional fractional part. -/
def parseUnsignedDecimal (cs : List Char) : Option Rat :=
  match splitOnDot cs with
  | [ip] =>
    if !ip.isEmpty && ip.all Char.isDigit then
      some ((digitsToNat ip : Int) : Rat)
    else none
  | [ip, fp] =>
    if (!ip.isEmpty || !fp.isEmpty) && ip.all Char.isDigit && fp.all Char.isDigit then
      some ((digitsToNat ip : Rat) + (digitsToNat fp : Rat) / ((10 : Rat) ^ fp.length))
    else none
  | _ => none

/-- Models the Postgres DOUBLE PRECISION input syntax restricted to plain
decimal literals: optional sign, digits, optional fractional digits.
Exponent notation and special values are not modelled; no claim depends on
the exact boundary of accepted numeric literals. -/
def parsePgDouble (s : String) : Option Rat :=
  match s.data with
  | [] => none
  | c :: rest =>
    if c = '-' then (parseUnsignedDecimal rest).map (fun q => -q)
    else if c = '+' then parseUnsignedDecimal rest
    else parseUnsignedDecimal (c :: rest)

/-- Conservative model of the Postgres TIMESTAMP input syntax: an accepted
literal consists only of digits and date/time separators and contains at
least one digit.  No claim depends on the exact boundary of accepted
timestamp literals, only on: the empty string becomes NULL upstream, and a
word such as "abc" is rejected by the cast. -/
def isTimestampText (s : String) : Bool :=
  !s.data.isEmpty
    && s.data.all (fun c => c.isDigit || c = '-' || c = '/' || c = ':' || c = '.' || c = ' ' || c = 'T')
    && s.data.any Char.isDigit

/-- NULLIF(s, ..empty..)::BIGINT.  A non-empty string that is not an integer
literal makes the cast raise, which is modelled by the error branch. -/
def castBigint (s : String) : Except String (Option Int) :=
  match nullif s with
  | none => .ok none
  | some t =>
    match parsePgInt t with
    | some n => .ok (some n)
    | none => .error "invalid input syntax for type bigint"

/-- NULLIF(s, ..empty..)::INTEGER. -/
def castInteger (s : String) : Except String (Option Int) :=
  match nullif s with
  | none => .ok none
  | some t =>
    match parsePgInt t with
    | some n => .ok (some n)
    | none => .error "invalid input syntax for type integer"

/-- NULLIF(s, ..empty..)::DOUBLE PRECISION. -/
def castDouble (s : String) : Except String (Option Rat) :=
  match nullif s with
  | none => .ok none
  | some t =>
    match parsePgDouble t with
    | some q => .ok (some q)
    | none => .error "invalid input syntax for type double precision"

/-- NULLIF(s, ..empty..)::TIMESTAMP.  Timestamp values are represented by
their accepted text; the claims never inspect the inside of a timestamp. -/
def castTimestamp (s : String) : Except String (Option String) :=
  match nullif s with
  | none => .ok none
  | some t =>
    if isTimestampText t then .ok (some t)
    else .error "invalid input syntax for type timestamp"

/-- Models the boolean transform NULLIF(s, ..empty..) = 'True' used for every
boolean destination column: NULL when the source field is empty, true exactly
when it is the literal string True, false for any other non-empty string.
A string comparison never raises. -/
def castBool (s : String) : Option Bool :=
  (nullif s).map (fun t => t == "True")

/-- A PostGIS point value: x is the first argument of ST_MakePoint
(the longitude in both merge statements), y the second. -/
structure Geometry where
  x : Rat
  y : Rat
  srid : Int
deriving Repr, DecidableEq

/-- ST_MakePoint(x, y): a point with no SRID assigned yet. -/
def st_makePoint (x y : Rat) : Geometry :=
  { x := x, y := y, srid := 0 }

/-- ST_SetSRID(g, srid). -/
def st_setSRID (g : Geometry) (srid : Int) : Geometry :=
  { g with srid := srid }

/-- The CASE expression computing the location column in both merge
statements:
WHEN NULLIF(latitude,..) IS NOT NULL AND NULLIF(longitude,..) IS NOT NULL
THEN ST_SetSRID(ST_MakePoint(lon::DOUBLE PRECISION, lat::DOUBLE PRECISION), 4326)
ELSE NULL.  The casts inside the THEN branch are evaluated only when the
condition holds, and may raise. -/
def makeLocation (latitude longitude : String) : Except String (Option Geometry) :=
  match nullif latitude, nullif longitude with
  | some latText, some lonText =>
    match parsePgDouble lonText, parsePgDouble latText with
    | some x, some y => .ok (some (st_setSRID (st_makePoint x y) 4326))
    | _, _ => .error "invalid input syntax for type double precision"
  | _, _ => .ok none

/-! ## Tables and the two ON CONFLICT policies -/

/-- A destination table keyed by its BIGINT primary key: a list of
(key, non-key columns) pairs. -/
abbrev Table (α : Type) := List (Int × α)

/-- First row with the given key, if any. -/
def lookupKey {α : Type} : Table α → Int → Option α
  | [], _ => none
  | (k, v) :: rest, key => if k = key then some v else lookupKey rest key

/-- Overwrite the non-key columns of an entry when its key is k. -/
def setEntry {α : Type} (k : Int) (v : α) (p : Int × α) : Int × α :=
  if p.1 = k then (k, v) else p

/-- ON CONFLICT (pk) DO UPDATE SET (every non-key column = EXCLUDED.column):
when the key is present the stored non-key columns are all overwritten with
the incoming values, otherwise the row is inserted. -/
def upsertLastWins {α : Type} (t : Table α) (k : Int) (v : α) : Table α :=
  if (lookupKey t k).isSome then t.map (setEntry k v) else t ++ [(k, v)]

/-- ON CONFLICT (pk) DO NOTHING: when the key is present the existing row is
left untouched, otherwise the row is inserted. -/
def insertFirstWins {α : Type} (t : Table α) (k : Int) (v : α) : Table α :=
  if (lookupKey t k).isSome then t else t ++ [(k, v)]

/-- Evaluate a fallible per-row transform over all staging rows; the INSERT
SELECT statement is atomic, so one failing row fails the whole statement. -/
def exceptMapList {α β : Type} (f : α → Except String β) : List α → Except String (List β)
  | [] => .ok []
  | a :: rest => do
    let b ← f a
    let bs ← exceptMapList f rest
    .ok (b :: bs)

/-- Apply transformed rows with the DO UPDATE policy.  A NULL key violates
the primary-key NOT NULL constraint; a key already affected by the same
statement makes Postgres raise (ON CONFLICT DO UPDATE cannot affect a row a
second time). -/
def applyDoUpdate {α : Type} : Table α → List Int → List (Option Int × α) → Except String (Table α)
  | t, _, [] => .ok t
  | _, _, (none, _) :: _ =>
    .error "null value in primary key column violates not-null constraint"
  | t, touched, (some k, v) :: rest =>
    if k ∈ touched then
      .error "ON CONFLICT DO UPDATE command cannot affect row a second time"
    else applyDoUpdate (upsertLastWins t k v) (k :: touched) rest

/-- Apply transformed rows with the DO NOTHING policy.  A NULL key violates
the primary-key NOT NULL constraint; a duplicate key is skipped. -/
def applyDoNothing {α : Type} : Table α → List (Option Int × α) → Except String (Table α)
  | t, [] => .ok t
  | _, (none, _) :: _ =>
    .error "null value in primary key column violates not-null constraint"
  | t, (some k, v) :: rest => applyDoNothing (insertFirstWins t k v) rest

/-! ## NYC crashes: staging row, target row, transform, merge -/

/-- One row of the nyc_crashes_staging table: the all-text landing columns in
the order of the staging CREATE TABLE in load_nyc_dataset. -/
structure NycStagingRow where
  crash_date : String
  crash_time : String
  borough : String
  zip_code : String
  latitude : String
  longitude : String
  location : String
  on_street_name : String
  cross_street_name : String
  off_street_name : String
  number_of_persons_injured : String
  number_of_persons_killed : String
  number_of_pedestrians_injured : String
  number_of_pedestrians_killed : String
  number_of_cyclist_injured : String
  number_of_cyclist_killed : String
  number_of_motorist_injured : String
  number_of_motorist_killed : String
  contributing_factor_vehicle_1 : String
  contributing_factor_vehicle_2 : String
  contributing_factor_vehicle_3 : String
  contributing_factor_vehicle_4 : String
  contributing_factor_vehicle_5 : String
  collision_id : String
  vehicle_type_code1 : String
  vehicle_type_code2 : String
  vehicle_type_code3 : String
  vehicle_type_code4 : String
  vehicle_type_code5 : String
deriving Repr, DecidableEq, Inhabited

/-- The non-key columns of one nyc_crashes destination row
(collision_id BIGINT PRIMARY KEY is the table key). -/
structure NycRow where
  crash_date : Option String
  crash_time : Option String
  borough : Option String
  zip_code : Option String
  latitude : Option Rat
  longitude : Option Rat
  location : Option Geometry
  on_street_name : Option String
  off_street_name : Option String
  cross_street_name : Option String
  number_of_persons_injured : Option Int
  number_of_persons_killed : Option Int
  number_of_pedestrians_injured : Option Int
  number_of_pedestrians_killed : Option Int
  number_of_cyclist_injured : Option Int
  number_of_cyclist_killed : Option Int
  number_of_motorist_injured : Option Int
  number_of_motorist_killed : Option Int
  contributing_factor_vehicle_1 : Option String
  contributing_factor_vehicle_2 : Option String
  contributing_factor_vehicle_3 : Option String
  contributing_factor_vehicle_4 : Option String
  contributing_factor_vehicle_5 : Option String
  vehicle_type_code1 : Option String
  vehicle_type_code2 : Option String
  vehicle_type_code3 : Option String
  vehicle_type_code4 : Option String
  vehicle_type_code5 : Option String
deriving Repr, DecidableEq, Inhabited

/-- The SELECT list of the nyc_crashes merge statement, applied to one
staging row: each column is NULLIF-normalized and cast to its destination
type, the location column is the SRID-4326 point CASE expression.  Fallible
casts are sequenced in the order they appear in the SELECT list. -/
def nycTransformRow (r : NycStagingRow) : Except String (Option Int × NycRow) := do
  let collision_id ← castBigint r.collision_id
  let crash_date ← castTimestamp r.crash_date
  let latitude ← castDouble r.latitude
  let longitude ← castDouble r.longitude
  let location ← makeLocation r.latitude r.longitude
  let n1 ← castInteger r.number_of_persons_injured
  let n2 ← castInteger r.number_of_persons_killed
  let n3 ← castInteger r.number_of_pedestrians_injured
  let n4 ← castInteger r.number_of_pedestrians_killed
  let n5 ← castInteger r.number_of_cyclist_injured
  let n6 ← castInteger r.number_of_cyclist_killed
  let n7 ← castInteger r.number_of_motorist_injured
  let n8 ← castInteger r.number_of_motorist_killed
  .ok (collision_id,
    { crash_date := crash_date
      crash_time := nullif r.crash_time
      borough := nullif r.borough
      zip_code := nullif r.zip_code
      latitude := latitude
      longitude := longitude
      location := location
      on_street_name := nullif r.on_street_name
      off_street_name := nullif r.off_street_name
      cross_street_name := nullif r.cross_street_name
      number_of_persons_injured := n1
      number_of_persons_killed := n2
      number_of_pedestrians_injured := n3
      number_of_pedestrians_killed := n4
      number_of_cyclist_injured := n5
      number_of_cyclist_killed := n6
      number_of_motorist_injured := n7
      number_of_motorist_killed := n8
      contributing_factor_vehicle_1 := nullif r.contributing_factor_vehicle_1
      contributing_factor_vehicle_2 := nullif r.contributing_factor_vehicle_2
      contributing_factor_vehicle_3 := nullif r.contributing_factor_vehicle_3
      contributing_factor_vehicle_4 := nullif r.contributing_factor_vehicle_4
      contributing_factor_vehicle_5 := nullif r.contributing_factor_vehicle_5
      vehicle_type_code1 := nullif r.vehicle_type_code1
      vehicle_type_code2 := nullif r.vehicle_type_code2
      vehicle_type_code3 := nullif r.vehicle_type_code3
      vehicle_type_code4 := nullif r.vehicle_type_code4
      vehicle_type_code5 := nullif r.vehicle_type_code5 })

/-- The nyc_crashes merge statement of load_nyc_dataset: rows whose
collision_id is NULL after normalization are excluded by the WHERE clause,
the surviving rows are transformed and inserted with
ON CONFLICT (collision_id) DO UPDATE over every non-key column. -/
def load_nyc_dataset_merge (staging : List NycStagingRow) (t : Table NycRow) :
    Except String (Table NycRow) := do
  let rows ← exceptMapList nycTransformRow
    (staging.filter (fun r => (nullif r.collision_id).isSome))
  applyDoUpdate t [] rows

/-! ## California crashes: staging row, target row, transform, merge -/

/-- One row of the ca_crashes staging table: the all-text landing columns in
the order of create_staging_table_for_california for ca_crashes. -/
structure CaCrashesStagingRow where
  collision_id : String
  report_number : String
  report_version : String
  is_preliminary : String
  ncic_code : String
  crash_date_time : String
  crash_time_description : String
  beat : String
  city_id : String
  city_code : String
  city_name : String
  county_code : String
  city_is_active : String
  city_is_incorporated : String
  collision_type_code : String
  collision_type_description : String
  collision_type_other_desc : String
  day_of_week : String
  dispatch_notified : String
  has_photographs : String
  hit_run : String
  is_attachments_mailed : String
  is_deleted : String
  is_highway_related : String
  is_tow_away : String
  judicial_district : String
  motor_vehicle_involved_with_code : String
  motor_vehicle_involved_with_desc : String
  motor_vehicle_involved_with_other_desc : String
  number_injured : String
  number_killed : String
  weather_1 : String
  weather_2 : String
  road_condition_1 : String
  road_condition_2 : String
  special_condition : String
  lighting_code : String
  lighting_description : String
  latitude : String
  longitude : String
  milepost_direction : String
  milepost_distance : String
  milepost_marker : String
  milepost_unit_of_measure : String
  pedestrian_action_code : String
  pedestrian_action_desc : String
  prepared_date : String
  primary_collision_factor_code : String
  primary_collision_factor_violation : String
  primary_collision_factor_is_cited : String
  primary_collision_party_number : String
  primary_road : String
  reporting_district : String
  reporting_district_code : String
  reviewed_date : String
  roadway_surface_code : String
  secondary_direction : String
  secondary_distance : String
  secondary_road : String
  secondary_unit_of_measure : String
  sketch_desc : String
  traffic_control_device_code : String
  created_date : String
  modified_date : String
  is_county_road : String
  is_freeway : String
  chp555_version : String
  is_additional_object_struck : String
  notification_date : String
  notification_time_description : String
  has_digital_media_files : String
  evidence_number : String
  is_location_refer_to_narrative : String
  is_aoi_one_same_as_location : String
deriving Repr, DecidableEq, Inhabited

/-- The non-key columns of one ca_crashes destination row
(collision_id BIGINT PRIMARY KEY is the table key). -/
structure CaCrashesRow where
  report_number : Option String
  report_version : Option Int
  is_preliminary : Option Bool
  ncic_code : Option String
  crash_date_time : Option String
  crash_time_description : Option String
  beat : Option String
  city_id : Option Int
  city_code : Option String
  city_name : Option String
  county_code : Option String
  city_is_active : Option Bool
  city_is_incorporated : Option Bool
  collision_type_code : Option String
  collision_type_description : Option String
  collision_type_other_desc : Option String
  day_of_week : Option String
  dispatch_notified : Option String
  has_photographs : Option Bool
  hit_run : Option String
  is_attachments_mailed : Option Bool
  is_deleted : Option Bool
  is_highway_related : Option Bool
  is_tow_away : Option Bool
  judicial_district : Option String
  motor_vehicle_involved_with_code : Option String
  motor_vehicle_involved_with_desc : Option String
  motor_vehicle_involved_with_other_desc : Option String
  number_injured : Option Int
  number_killed : Option Int
  weather_1 : Option String
  weather_2 : Option String
  road_condition_1 : Option String
  road_condition_2 : Option String
  special_condition : Option String
  lighting_code : Option String
  lighting_description : Option String
  latitude : Option Rat
  longitude : Option Rat
  location : Option Geometry
  milepost_direction : Option String
  milepost_distance : Option String
  milepost_marker : Option String
  milepost_unit_of_measure : Option String
  pedestrian_action_code : Option String
  pedestrian_action_desc : Option String
  prepared_date : Option String
  primary_collision_factor_code : Option String
  primary_collision_factor_violation : Option String
  primary_collision_factor_is_cited : Option Bool
  primary_collision_party_number : Option Int
  primary_road : Option String
  reporting_district : Option String
  reporting_district_code : Option String
  reviewed_date : Option String
  roadway_surface_code : Option String
  secondary_direction : Option String
  secondary_distance : Option String
  secondary_road : Option String
  secondary_unit_of_measure : Option String
  sketch_desc : Option String
  traffic_control_device_code : Option String
  created_date : Option String
  modified_date : Option String
  is_county_road : Option Bool
  is_freeway : Option Bool
  chp555_version : Option String
  is_additional_object_struck : Option Bool
  notification_date : Option String
  notification_time_description : Option String
  has_digital_media_files : Option Bool
  evidence_number : Option String
  is_location_refer_to_narrative : Option Bool
  is_aoi_one_same_as_location : Option Bool
deriving Repr, DecidableEq, Inhabited

/-- The SELECT list of the ca_crashes branch of
populate_california_target_table, applied to one staging row.  Fallible
casts are sequenced in the order they appear in the SELECT list; boolean
columns use the never-raising comparison with the literal True. -/
def caCrashesTransformRow (r : CaCrashesStagingRow) :
    Except String (Option Int × CaCrashesRow) := do
  let collision_id ← castBigint r.collision_id
  let report_version ← castInteger r.report_version
  let crash_date_time ← castTimestamp r.crash_date_time
  let city_id ← castInteger r.city_id
  let number_injured ← castInteger r.number_injured
  let number_killed ← castInteger r.number_killed
  let latitude ← castDouble r.latitude
  let longitude ← castDouble r.longitude
  let location ← makeLocation r.latitude r.longitude
  let prepared_date ← castTimestamp r.prepared_date
  let primary_collision_party_number ← castInteger r.primary_collision_party_number
  let reviewed_date ← castTimestamp r.reviewed_date
  let created_date ← castTimestamp r.created_date
  let modified_date ← castTimestamp r.modified_date
  let notification_date ← castTimestamp r.notification_date
  .ok (collision_id,
    { report_number := nullif r.report_number
      report_version := report_version
      is_preliminary := castBool r.is_preliminary
      ncic_code := nullif r.ncic_code
      crash_date_time := crash_date_time
      crash_time_description := nullif r.crash_time_description
      beat := nullif r.beat
      city_id := city_id
      city_code := nullif r.city_code
      city_name := nullif r.city_name
      county_code := nullif r.county_code
      city_is_active := castBool r.city_is_active
      city_is_incorporated := castBool r.city_is_incorporated
      collision_type_code := nullif r.collision_type_code
      collision_type_description := nullif r.collision_type_description
      collision_type_other_desc := nullif r.collision_type_other_desc
      day_of_week := nullif r.day_of_week
      dispatch_notified := nullif r.dispatch_notified
      has_photographs := castBool r.has_photographs
      hit_run := nullif r.hit_run
      is_attachments_mailed := castBool r.is_attachments_mailed
      is_deleted := castBool r.is_deleted
      is_highway_related := castBool r.is_highway_related
      is_tow_away := castBool r.is_tow_away
      judicial_district := nullif r.judicial_district
      motor_vehicle_involved_with_code := nullif r.motor_vehicle_involved_with_code
      motor_vehicle_involved_with_desc := nullif r.motor_vehicle_involved_with_desc
      motor_vehicle_involved_with_other_desc := nullif r.motor_vehicle_involved_with_other_desc
      number_injured := number_injured
      number_killed := number_killed
      weather_1 := nullif r.weather_1
      weather_2 := nullif r.weather_2
      road_condition_1 := nullif r.road_condition_1
      road_condition_2 := nullif r.road_condition_2
      special_condition := nullif r.special_condition
      lighting_code := nullif r.lighting_code
      lighting_description := nullif r.lighting_description
      latitude := latitude
      longitude := longitude
      location := location
      milepost_direction := nullif r.milepost_direction
      milepost_distance := nullif r.milepost_distance
      milepost_marker := nullif r.milepost_marker
      milepost_unit_of_measure := nullif r.milepost_unit_of_measure
      pedestrian_action_code := nullif r.pedestrian_action_code
      pedestrian_action_desc := nullif r.pedestrian_action_desc
      prepared_date := prepared_date
      primary_collision_factor_code := nullif r.primary_collision_factor_code
      primary_collision_factor_violation := nullif r.primary_collision_factor_violation
      primary_collision_factor_is_cited := castBool r.primary_collision_factor_is_cited
      primary_collision_party_number := primary_collision_party_number
      primary_road := nullif r.primary_road
      reporting_district := nullif r.reporting_district
      reporting_district_code := nullif r.reporting_district_code
      reviewed_date := reviewed_date
      roadway_surface_code := nullif r.roadway_surface_code
      secondary_direction := nullif r.secondary_direction
      secondary_distance := nullif r.secondary_distance
      secondary_road := nullif r.secondary_road
      secondary_unit_of_measure := nullif r.secondary_unit_of_measure
      sketch_desc := nullif r.sketch_desc
      traffic_control_device_code := nullif r.traffic_control_device_code
      created_date := created_date
      modified_date := modified_date
      is_county_road := castBool r.is_county_road
      is_freeway := castBool r.is_freeway
      chp555_version := nullif r.chp555_version
      is_additional_object_struck := castBool r.is_additional_object_struck
      notification_date := notification_date
      notification_time_description := nullif r.notification_time_description
      has_digital_media_files := castBool r.has_digital_media_files
      evidence_number := nullif r.evidence_number
      is_location_refer_to_narrative := castBool r.is_location_refer_to_narrative
      is_aoi_one_same_as_location := castBool r.is_aoi_one_same_as_location })

/-- The ca_crashes merge statement of populate_california_target_table: the
SELECT has no WHERE clause, so every staging row is transformed and inserted
with ON CONFLICT (collision_id) DO NOTHING. -/
def populate_ca_crashes (staging : List CaCrashesStagingRow) (t : Table CaCrashesRow) :
    Except String (Table CaCrashesRow) := do
  let rows ← exceptMapList caCrashesTransformRow staging
  applyDoNothing t rows

/-! ## California injured/witness/passengers table -/

/-- One row of the ca_injuredwitnesspassengers staging table. -/
structure CaIwpStagingRow where
  collision_id : String
  injured_wit_pass_id : String
  stated_age : String
  gender : String
  gender_desc : String
  race : String
  race_desc : String
  is_witness_only : String
  is_passenger_only : String
  extent_of_injury_code : String
  injured_person_type : String
  seat_position : String
  seat_position_other : String
  air_bag_code : String
  air_bag_description : String
  safety_equipment_code : String
  safety_equipment_description : String
  ejected : String
  is_vovc_notified : String
  party_number : String
  seat_position_description : String
deriving Repr, DecidableEq, Inhabited

/-- The non-key columns of one ca_injuredwitnesspassengers destination row
(injured_wit_pass_id BIGINT PRIMARY KEY is the table key). -/
structure CaIwpRow where
  collision_id : Option Int
  stated_age : Option Int
  gender : Option String
  gender_desc : Option String
  race : Option String
  race_desc : Option String
  is_witness_only : Option Bool
  is_passenger_only : Option Bool
  extent_of_injury_code : Option String
  injured_person_type : Option String
  seat_position : Option String
  seat_position_other : Option String
  air_bag_code : Option String
  air_bag_description : Option String
  safety_equipment_code : Option String
  safety_equipment_description : Option String
  ejected : Option String
  is_vovc_notified : Option Bool
  party_number : Option Int
  seat_position_description : Option String
deriving Repr, DecidableEq, Inhabited

/-- The SELECT list of the ca_injuredwitnesspassengers branch of
populate_california_target_table, applied to one staging row. -/
def caIwpTransformRow (r : CaIwpStagingRow) : Except String (Option Int × CaIwpRow) := do
  let injured_wit_pass_id ← castBigint r.injured_wit_pass_id
  let collision_id ← castBigint r.collision_id
  let stated_age ← castInteger r.stated_age
  let party_number ← castInteger r.party_number
  .ok (injured_wit_pass_id,
    { collision_id := collision_id
      stated_age := stated_age
      gender := nullif r.gender
      gender_desc := nullif r.gender_desc
      race := nullif r.race
      race_desc := nullif r.race_desc
      is_witness_only := castBool r.is_witness_only
      is_passenger_only := castBool r.is_passenger_only
      extent_of_injury_code := nullif r.extent_of_injury_code
      injured_person_type := nullif r.injured_person_type
      seat_position := nullif r.seat_position
      seat_position_other := nullif r.seat_position_other
      air_bag_code := nullif r.air_bag_code
      air_bag_description := nullif r.air_bag_description
      safety_equipment_code := nullif r.safety_equipment_code
      safety_equipment_description := nullif r.safety_equipment_description
      ejected := nullif r.ejected
      is_vovc_notified := castBool r.is_vovc_notified
      party_number := party_number
      seat_position_description := nullif r.seat_position_description })

/-- The ca_injuredwitnesspassengers merge statement: rows whose
injured_wit_pass_id is NULL after normalization are excluded by the WHERE
clause; ON CONFLICT (injured_wit_pass_id) DO NOTHING. -/
def populate_ca_injuredwitnesspassengers (staging : List CaIwpStagingRow)
    (t : Table CaIwpRow) : Except String (Table CaIwpRow) := do
  let rows ← exceptMapList caIwpTransformRow
    (staging.filter (fun r => (nullif r.injured_wit_pass_id).isSome))
  applyDoNothing t rows

/-! ## California parties table -/

/-- One row of the ca_parties staging table. -/
structure CaPartiesStagingRow where
  party_id : String
  collision_id : String
  party_number : String
  party_type : String
  is_at_fault : String
  is_on_duty_emergency_vehicle : String
  is_hit_and_run : String
  airbag_code : String
  airbag_description : String
  safety_equipment_code : String
  safety_equipment_description : String
  special_information : String
  other_associate_factor : String
  inattention : String
  direction_of_travel : String
  street_or_highway_name : String
  speed_limit : String
  movement_prec_coll_code : String
  movement_prec_coll_description : String
  sobriety_drug_physical_code1 : String
  sobriety_drug_physical_description1 : String
  sobriety_drug_physical_code2 : String
  sobriety_drug_physical_description2 : String
  gender_code : String
  gender_description : String
  stated_age : String
  driver_license_class : String
  driver_license_state_code : String
  race_code : String
  race_desc : String
  vehicle1_type_id : String
  vehicle1_type_desc : String
  vehicle1_year : String
  vehicle1_make : String
  vehicle1_model : String
  vehicle1_color : String
  v1_is_vehicle_towed : String
  vehicle2_type_id : String
  vehicle2_type_desc : String
  vehicle2_year : String
  vehicle2_make : String
  vehicle2_model : String
  vehicle2_color : String
  v2_is_vehicle_towed : String
  lane : String
  thru_lanes : String
  total_lanes : String
  is_dre_conducted : String
deriving Repr, DecidableEq, Inhabited

/-- The non-key columns of one ca_parties destination row
(party_id BIGINT PRIMARY KEY is the table key). -/
structure CaPartiesRow where
  collision_id : Option Int
  party_number : Option Int
  party_type : Option String
  is_at_fault : Option Bool
  is_on_duty_emergency_vehicle : Option Bool
  is_hit_and_run : Option Bool
  airbag_code : Option String
  airbag_description : Option String
  safety_equipment_code : Option String
  safety_equipment_description : Option String
  special_information : Option String
  other_associate_factor : Option String
  inattention : Option String
  direction_of_travel : Option String
  street_or_highway_name : Option String
  speed_limit : Option Int
  movement_prec_coll_code : Option String
  movement_prec_coll_description : Option String
  sobriety_drug_physical_code1 : Option String
  sobriety_drug_physical_description1 : Option String
  sobriety_drug_physical_code2 : Option String
  sobriety_drug_physical_description2 : Option String
  gender_code : Option String
  gender_description : Option String
  stated_age : Option Int
  driver_license_class : Option String
  driver_license_state_code : Option String
  race_code : Option String
  race_desc : Option String
  vehicle1_type_id : Option Int
  vehicle1_type_desc : Option String
  vehicle1_year : Option Int
  vehicle1_make : Option String
  vehicle1_model : Option String
  vehicle1_color : Option String
  v1_is_vehicle_towed : Option Bool
  vehicle2_type_id : Option Int
  vehicle2_type_desc : Option String
  vehicle2_year : Option Int
  vehicle2_make : Option String
  vehicle2_model : Option String
  vehicle2_color : Option String
  v2_is_vehicle_towed : Option Bool
  lane : Option String
  thru_lanes : Option Int
  total_lanes : Option Int
  is_dre_conducted : Option Bool
deriving Repr, DecidableEq, Inhabited

/-- The SELECT list of the ca_parties branch of
populate_california_target_table, applied to one staging row. -/
def caPartiesTransformRow (r : CaPartiesStagingRow) :
    Except String (Option Int × CaPartiesRow) := do
  let party_id ← castBigint r.party_id
  let collision_id ← castBigint r.collision_id
  let party_number ← castInteger r.party_number
  let speed_limit ← castInteger r.speed_limit
  let stated_age ← castInteger r.stated_age
  let vehicle1_type_id ← castInteger r.vehicle1_type_id
  let vehicle1_year ← castInteger r.vehicle1_year
  let vehicle2_type_id ← castInteger r.vehicle2_type_id
  let vehicle2_year ← castInteger r.vehicle2_year
  let thru_lanes ← castInteger r.thru_lanes
  let total_lanes ← castInteger r.total_lanes
  .ok (party_id,
    { collision_id := collision_id
      party_number := party_number
      party_type := nullif r.party_type
      is_at_fault := castBool r.is_at_fault
      is_on_duty_emergency_vehicle := castBool r.is_on_duty_emergency_vehicle
      is_hit_and_run := castBool r.is_hit_and_run
      airbag_code := nullif r.airbag_code
      airbag_description := nullif r.airbag_description
      safety_equipment_code := nullif r.safety_equipment_code
      safety_equipment_description := nullif r.safety_equipment_description
      special_information := nullif r.special_information
      other_associate_factor := nullif r.other_associate_factor
      inattention := nullif r.inattention
      direction_of_travel := nullif r.direction_of_travel
      street_or_highway_name := nullif r.street_or_highway_name
      speed_limit := speed_limit
      movement_prec_coll_code := nullif r.movement_prec_coll_code
      movement_prec_coll_description := nullif r.movement_prec_coll_description
      sobriety_drug_physical_code1 := nullif r.sobriety_drug_physical_code1
      sobriety_drug_physical_description1 := nullif r.sobriety_drug_physical_description1
      sobriety_drug_physical_code2 := nullif r.sobriety_drug_physical_code2
      sobriety_drug_physical_description2 := nullif r.sobriety_drug_physical_description2
      gender_code := nullif r.gender_code
      gender_description := nullif r.gender_description
      stated_age := stated_age
      driver_license_class := nullif r.driver_license_class
      driver_license_state_code := nullif r.driver_license_state_code
      race_code := nullif r.race_code
      race_desc := nullif r.race_desc
      vehicle1_type_id := vehicle1_type_id
      vehicle1_type_desc := nullif r.vehicle1_type_desc
      vehicle1_year := vehicle1_year
      vehicle1_make := nullif r.vehicle1_make
      vehicle1_model := nullif r.vehicle1_model
      vehicle1_color := nullif r.vehicle1_color
      v1_is_vehicle_towed := castBool r.v1_is_vehicle_towed
      vehicle2_type_id := vehicle2_type_id
      vehicle2_type_desc := nullif r.vehicle2_type_desc
      vehicle2_year := vehicle2_year
      vehicle2_make := nullif r.vehicle2_make
      vehicle2_model := nullif r.vehicle2_model
      vehicle2_color := nullif r.vehicle2_color
      v2_is_vehicle_towed := castBool r.v2_is_vehicle_towed
      lane := nullif r.lane
      thru_lanes := thru_lanes
      total_lanes := total_lanes
      is_dre_conducted := castBool r.is_dre_conducted })

/-- The ca_parties merge statement: rows whose party_id is NULL after
normalization are excluded by the WHERE clause;
ON CONFLICT (party_id) DO NOTHING. -/
def populate_ca_parties (staging : List CaPartiesStagingRow)
    (t : Table CaPartiesRow) : Except String (Table CaPartiesRow) := do
  let rows ← exceptMapList caPartiesTransformRow
    (staging.filter (fun r => (nullif r.party_id).isSome))
  applyDoNothing t rows

/-! ## California loader orchestration and the full-pipeline data model -/

/-- The fixed file-to-table mapping CA_TABLE_MAPPING. -/
def CA_TABLE_MAPPING : List (String × String) :=
  [("2025crashes.csv", "ca_crashes"),
   ("2025injuredwitnesspassengers.csv", "ca_injuredwitnesspassengers"),
   ("2025parties.csv", "ca_parties")]

/-- The (csv file, table) pairs actually loaded by load_california_datasets:
the loop iterates over CA_TABLE_MAPPING and skips (with a warning, without
failing the run) every mapped filename that is not in the configured
CA_DATA_KEYS list. -/
def caFilesLoaded (caDataKeys : List String) : List (String × String) :=
  CA_TABLE_MAPPING.filter (fun p => caDataKeys.contains p.1)

/-- All destination tables of the pipeline. -/
structure DbState where
  nyc_crashes : Table NycRow
  ca_crashes : Table CaCrashesRow
  ca_injuredwitnesspassengers : Table CaIwpRow
  ca_parties : Table CaPartiesRow
deriving Repr, DecidableEq

/-- The source side of one pipeline run: the CSV contents reachable in the
data bucket and the configured CA_DATA_KEYS list. -/
structure SourceData where
  nycCsv : List NycStagingRow
  caCrashesCsv : List CaCrashesStagingRow
  caIwpCsv : List CaIwpStagingRow
  caPartiesCsv : List CaPartiesStagingRow
  caDataKeys : List String
deriving Repr, DecidableEq

/-- The state right after CREATE DATABASE and the CREATE TABLE IF NOT EXISTS
statements: every destination table exists and is empty. -/
def emptyDb : DbState :=
  { nyc_crashes := [], ca_crashes := [],
    ca_injuredwitnesspassengers := [], ca_parties := [] }

/-- Row-level model of load_california_datasets: each mapped file present in
CA_DATA_KEYS is staged and merged into its table, in mapping order; a mapped
file absent from CA_DATA_KEYS is skipped and its table is left unchanged. -/
def load_california_datasets_rows (src : SourceData) (db : DbState) :
    Except String DbState := do
  let caC ←
    if "2025crashes.csv" ∈ src.caDataKeys then
      populate_ca_crashes src.caCrashesCsv db.ca_crashes
    else .ok db.ca_crashes
  let caI ←
    if "2025injuredwitnesspassengers.csv" ∈ src.caDataKeys then
      populate_ca_injuredwitnesspassengers src.caIwpCsv db.ca_injuredwitnesspassengers
    else .ok db.ca_injuredwitnesspassengers
  let caP ←
    if "2025parties.csv" ∈ src.caDataKeys then
      populate_ca_parties src.caPartiesCsv db.ca_parties
    else .ok db.ca_parties
  .ok { db with
        ca_crashes := caC
        ca_injuredwitnesspassengers := caI
        ca_parties := caP }

/-- Row-level model of one non-Delete handler invocation:
ensure_database_exists drops and recreates the database (so the previous
destination contents are discarded), the tables are created empty, then
load_nyc_dataset and load_california_datasets merge the source data. -/
def run_pipeline (src : SourceData) (_db : DbState) : Except String DbState := do
  let nyc ← load_nyc_dataset_merge src.nycCsv emptyDb.nyc_crashes
  load_california_datasets_rows src { emptyDb with nyc_crashes := nyc }

/-! ## Staged-load control flow (try/finally staging cleanup) -/

/-- Which SQL calls of one staged file load fail, as issued by
load_nyc_dataset and by one iteration of load_california_datasets:
DROP staging, CREATE staging, the aws_s3 import, the merge INSERT inside the
try block, and the DROP staging in the finally block. -/
structure StagedLoadEnv where
  dropBeforeFails : Bool
  createFails : Bool
  importFails : Bool
  mergeFails : Bool
  finalDropFails : Bool
deriving Repr, DecidableEq, Inhabited

/-- Observable outcome of one staged file load: which SQL calls were
attempted, whether the staging table still exists afterwards, and which
error (if any) the function propagates to its caller. -/
structure StagedLoadOutcome where
  attempted : List String
  stagingExists : Bool
  propagated : Option String
deriving Repr, DecidableEq

/-- The try-block of one staged file load, starting from a staging table
that exists iff init: the attempted calls, the staging-table existence when
the block ends, and the error it raises (if any). -/
def stagedLoadBody (init : Bool) (env : StagedLoadEnv) :
    List String × Bool × Option String :=
  if env.dropBeforeFails then
    (["drop staging"], init, some "drop staging failed")
  else if env.createFails then
    (["drop staging", "create staging"], false, some "create staging failed")
  else if env.importFails then
    (["drop staging", "create staging", "import"], true, some "import failed")
  else if env.mergeFails then
    (["drop staging", "create staging", "import", "merge"], true, some "merge failed")
  else
    (["drop staging", "create staging", "import", "merge"], true, none)

/-- One staged file load with its finally block: the final DROP staging is
attempted whatever the try-block did.  Python finally semantics: when the
final drop itself raises, that exception propagates in place of the
try-block error; when it succeeds, the staging table is gone and the
try-block error (if any) propagates. -/
def stagedLoadRun (init : Bool) (env : StagedLoadEnv) : StagedLoadOutcome :=
  let body := stagedLoadBody init env
  if env.finalDropFails then
    { attempted := body.1 ++ ["final drop staging"]
      stagingExists := body.2.1
      propagated := some "final drop staging failed" }
  else
    { attempted := body.1 ++ ["final drop staging"]
      stagingExists := false
      propagated := body.2.2 }

/-! ## Lambda handler dispatch -/

/-- Which of the handler's load-sequence steps fail, plus whether the
best-effort delete cleanup fails. -/
structure HandlerEnv where
  cleanupFails : Bool
  waitFails : Bool
  ensureDatabaseFails : Bool
  extensionsFails : Bool
  createNycTableFails : Bool
  createCaTablesFails : Bool
  loadNycFails : Bool
  loadCaFails : Bool
deriving Repr, DecidableEq, Inhabited

/-- The handler's load sequence, in call order. -/
def handlerLoadSteps : List String :=
  ["wait for cluster", "ensure database", "enable extensions",
   "create nyc table", "create ca tables", "load nyc", "load ca"]

/-- Every load step succeeds (the delete-cleanup flag is irrelevant to the
load path). -/
def handlerLoadOk (env : HandlerEnv) : Prop :=
  env.waitFails = false ∧ env.ensureDatabaseFails = false ∧
  env.extensionsFails = false ∧ env.createNycTableFails = false ∧
  env.createCaTablesFails = false ∧ env.loadNycFails = false ∧
  env.loadCaFails = false

instance (env : HandlerEnv) : Decidable (handlerLoadOk env) := by
  unfold handlerLoadOk; infer_instance

/-- Control-flow model of handler: the event carries an optional RequestType
and nothing else is required (a no-argument trigger gives none).  A Delete
request runs only cleanup_on_delete, which swallows every cleanup error,
and returns the skipped status; any other request runs the load sequence
and returns the complete status, or propagates the first failing step's
error.  The first component lists the steps the handler attempted. -/
def handler (requestType : Option String) (env : HandlerEnv) :
    List String × Except String String :=
  if requestType = some "Delete" then
    (["cleanup"], .ok "skipped")
  else if env.waitFails then
    (["wait for cluster"], .error "wait for cluster failed")
  else if env.ensureDatabaseFails then
    (["wait for cluster", "ensure database"], .error "ensure database failed")
  else if env.extensionsFails then
    (["wait for cluster", "ensure database", "enable extensions"],
     .error "enable extensions failed")
  else if env.createNycTableFails then
    (["wait for cluster", "ensure database", "enable extensions",
      "create nyc table"], .error "create nyc table failed")
  else if env.createCaTablesFails then
    (["wait for cluster", "ensure database", "enable extensions",
      "create nyc table", "create ca tables"], .error "create ca tables failed")
  else if env.loadNycFails then
    (["wait for cluster", "ensure database", "enable extensions",
      "create nyc table", "create ca tables", "load nyc"], .error "load nyc failed")
  else if env.loadCaFails then
    (handlerLoadSteps, .error "load ca failed")
  else
    (handlerLoadSteps, .ok "complete")

/-! ## Concrete sample data used to exercise the theorems -/

/-- A staging row whose fields are all empty, as a fully blank CSV line
lands in the all-text staging table. -/
def blankNycStaging : NycStagingRow := default

/-- A blank ca_crashes staging row: in particular its collision_id is the
empty string. -/
def blankCaCrashesStaging : CaCrashesStagingRow := default

/-- A blank ca_injuredwitnesspassengers staging row. -/
def blankCaIwpStaging : CaIwpStagingRow := default

/-- A blank ca_parties staging row. -/
def blankCaPartiesStaging : CaPartiesStagingRow := default

/-- A destination row with every nullable column NULL. -/
def nycRowAllNull : NycRow := default

/-- A ca_crashes destination row with every nullable column NULL. -/
def caCrashesRowAllNull : CaCrashesRow := default

/-- A ca_injuredwitnesspassengers destination row with every nullable
column NULL. -/
def caIwpRowAllNull : CaIwpRow := default

/-- A ca_parties destination row with every nullable column NULL. -/
def caPartiesRowAllNull : CaPartiesRow := default

/-- NYC staging row carrying only a key and coordinates. -/
def nycCoordStaging : NycStagingRow :=
  { blankNycStaging with collision_id := "7", latitude := "2", longitude := "3" }

/-- The destination row nycCoordStaging transforms to. -/
def nycCoordTarget : NycRow :=
  { nycRowAllNull with
      latitude := some 2
      longitude := some 3
      location := some { x := 3, y := 2, srid := 4326 } }

/-- NYC staging row carrying a key and a borough, as a re-import in which
only the borough field of row 7 changed. -/
def nycBoroughStaging : NycStagingRow :=
  { blankNycStaging with collision_id := "7", borough := "BRONX" }

/-- The destination row nycBoroughStaging transforms to. -/
def nycBoroughTargetNew : NycRow :=
  { nycRowAllNull with borough := some "BRONX" }

/-- The previously stored destination row for key 7: it differs from
nycBoroughTargetNew in exactly the borough column. -/
def nycBoroughTargetOld : NycRow :=
  { nycRowAllNull with borough := some "QUEENS" }

/-- NYC staging row with a key and an unparseable injured count. -/
def badIntNycStaging : NycStagingRow :=
  { blankNycStaging with collision_id := "1", number_of_persons_injured := "abc" }

/-- ca_crashes staging row with a key, coordinates and a True boolean. -/
def caCrashesSampleStaging : CaCrashesStagingRow :=
  { blankCaCrashesStaging with
      collision_id := "7"
      latitude := "2"
      longitude := "3"
      is_preliminary := "True" }

/-- The destination row caCrashesSampleStaging transforms to. -/
def caCrashesSampleTarget : CaCrashesRow :=
  { caCrashesRowAllNull with
      is_preliminary := some true
      latitude := some 2
      longitude := some 3
      location := some { x := 3, y := 2, srid := 4326 } }

/-- ca_injuredwitnesspassengers staging row carrying only its key. -/
def caIwpSampleStaging : CaIwpStagingRow :=
  { blankCaIwpStaging with injured_wit_pass_id := "5" }

/-- ca_parties staging row with a key and a True boolean. -/
def caPartiesSampleStaging : CaPartiesStagingRow :=
  { blankCaPartiesStaging with party_id := "9", is_at_fault := "True" }

/-- The destination row caPartiesSampleStaging transforms to. -/
def caPartiesSampleTarget : CaPartiesRow :=
  { caPartiesRowAllNull with is_at_fault := some true }

/-- A source dataset with empty CSVs and all three California keys
configured. -/
def emptySource : SourceData :=
  { nycCsv := []
    caCrashesCsv := []
    caIwpCsv := []
    caPartiesCsv := []
    caDataKeys := ["2025crashes.csv", "2025injuredwitnesspassengers.csv", "2025parties.csv"] }

/-- A staged-load run in which every SQL call succeeds. -/
def stagedLoadAllOk : StagedLoadEnv :=
  { dropBeforeFails := false, createFails := false, importFails := false
    mergeFails := false, finalDropFails := false }

/-- A staged-load run in which the import fails and the final staging drop
also fails. -/
def stagedLoadImportAndFinalDropFail : StagedLoadEnv :=
  { dropBeforeFails := false, createFails := false, importFails := true
    mergeFails := false, finalDropFails := true }

/-- A handler run in which every step succeeds. -/
def handlerAllOk : HandlerEnv := default

/-- A handler run in which the delete-cleanup fails. -/
def handlerCleanupFailsEnv : HandlerEnv :=
  { handlerAllOk with cleanupFails := true }

/-- A handler run in which load_nyc_dataset fails. -/
def handlerLoadNycFailsEnv : HandlerEnv :=
  { handlerAllOk with loadNycFails := true }

/-! ## Helper lemmas about tables and the merge machinery -/

theorem lookupKey_append_of_eq_none {α : Type} {t : Table α} {k : Int}
    (l : Table α) (h : lookupKey t k = none) :
    lookupKey (t ++ l) k = lookupKey l k := by
  induction t with
  | nil => rfl
  | cons a rest ih =>
    obtain ⟨ak, av⟩ := a
    by_cases hak : ak = k
    · simp [lookupKey, hak] at h
    · simp only [lookupKey, hak, if_neg, List.cons_append] at h ⊢
      exact ih h

theorem lookupKey_append_of_isSome {α : Type} {t : Table α} {k : Int}
    (l : Table α) (h : (lookupKey t k).isSome) :
    lookupKey (t ++ l) k = lookupKey t k := by
  induction t with
  | nil => simp [lookupKey] at h
  | cons a rest ih =>
    obtain ⟨ak, av⟩ := a
    by_cases hak : ak = k
    · simp [lookupKey, hak]
    · simp only [lookupKey, hak, if_neg, List.cons_append] at h ⊢
      exact ih h

theorem setEntry_eq_of_key {α : Type} (k : Int) (v : α) (av : α) :
    setEntry k v (k, av) = (k, v) := by
  simp [setEntry]

theorem setEntry_eq_of_ne {α : Type} {ak k : Int} (v : α) (av : α)
    (h : ak ≠ k) : setEntry k v (ak, av) = (ak, av) := by
  simp [setEntry, h]

theorem lookupKey_map_update_self {α : Type} {t : Table α} {k : Int} (v : α)
    (h : (lookupKey t k).isSome) :
    lookupKey (t.map (setEntry k v)) k = some v := by
  induction t with
  | nil => simp [lookupKey] at h
  | cons a rest ih =>
    obtain ⟨ak, av⟩ := a
    by_cases hak : ak = k
    · subst hak
      rw [List.map_cons, setEntry_eq_of_key]
      simp [lookupKey]
    · simp only [lookupKey, if_neg hak] at h
      rw [List.map_cons, setEntry_eq_of_ne v av hak]
      simp only [lookupKey]
      rw [if_neg hak]
      exact ih h

theorem lookupKey_map_update_ne {α : Type} {t : Table α} {k k2 : Int} (v : α)
    (hne : k2 ≠ k) :
    lookupKey (t.map (setEntry k v)) k2 = lookupKey t k2 := by
  induction t with
  | nil => rfl
  | cons a rest ih =>
    obtain ⟨ak, av⟩ := a
    have hkk2 : ¬ k = k2 := fun hh => hne hh.symm
    by_cases hak : ak = k
    · subst hak
      rw [List.map_cons, setEntry_eq_of_key]
      simp only [lookupKey]
      rw [if_neg hkk2, if_neg hkk2]
      exact ih
    · rw [List.map_cons, setEntry_eq_of_ne v av hak]
      simp only [lookupKey]
      by_cases hak2 : ak = k2
      · simp [hak2]
      · rw [if_neg hak2, if_neg hak2]
        exact ih

theorem upsertLastWins_lookup_self {α : Type} (t : Table α) (k : Int) (v : α) :
    lookupKey (upsertLastWins t k v) k = some v := by
  unfold upsertLastWins
  by_cases h : (lookupKey t k).isSome
  · rw [if_pos h]
    exact lookupKey_map_update_self v h
  · rw [if_neg h]
    rw [lookupKey_append_of_eq_none _ (Option.not_isSome_iff_eq_none.mp h)]
    simp [lookupKey]

theorem upsertLastWins_lookup_ne {α : Type} (t : Table α) (k k2 : Int) (v : α)
    (hne : k2 ≠ k) :
    lookupKey (upsertLastWins t k v) k2 = lookupKey t k2 := by
  unfold upsertLastWins
  by_cases h : (lookupKey t k).isSome
  · rw [if_pos h]
    exact lookupKey_map_update_ne v hne
  · rw [if_neg h]
    by_cases h2 : (lookupKey t k2).isSome
    · exact lookupKey_append_of_isSome _ h2
    · rw [lookupKey_append_of_eq_none _ (Option.not_isSome_iff_eq_none.mp h2)]
      rw [Option.not_isSome_iff_eq_none.mp h2]
      have hkk2 : ¬ k = k2 := fun hh => hne hh.symm
      simp [lookupKey, hkk2]

theorem upsertLastWins_length_of_mem {α : Type} (t : Table α) (k : Int) (v : α)
    (h : (lookupKey t k).isSome) :
    (upsertLastWins t k v).length = t.length := by
  unfold upsertLastWins
  rw [if_pos h, List.length_map]

theorem insertFirstWins_of_mem {α : Type} (t : Table α) (k : Int) (v : α)
    (h : (lookupKey t k).isSome) :
    insertFirstWins t k v = t := by
  simp [insertFirstWins, h]

theorem exceptMapList_singleton_ok {α β : Type} {f : α → Except String β} {a : α}
    {b : β} (h : f a = .ok b) :
    exceptMapList f [a] = .ok [b] := by
  simp [exceptMapList, h, bind, Except.bind]

theorem exceptMapList_cons_error {α β : Type} {f : α → Except String β} {a : α}
    {e : String} (l : List α) (h : f a = .error e) :
    exceptMapList f (a :: l) = .error e := by
  simp [exceptMapList, h, bind, Except.bind]

theorem applyDoUpdate_singleton {α : Type} (t : Table α) (k : Int) (v : α) :
    applyDoUpdate t [] [(some k, v)] = .ok (upsertLastWins t k v) := by
  simp [applyDoUpdate]

theorem applyDoNothing_singleton {α : Type} (t : Table α) (k : Int) (v : α) :
    applyDoNothing t [(some k, v)] = .ok (insertFirstWins t k v) := by
  simp [applyDoNothing]

/-! ## Extraction lemmas for the row transforms -/

theorem makeLocation_ok_spec (lat lon : String) (g : Option Geometry)
    (h : makeLocation lat lon = .ok g) :
    (lat ≠ "" → lon ≠ "" →
      ∃ x y, parsePgDouble lon = some x ∧ parsePgDouble lat = some y ∧
        g = some { x := x, y := y, srid := 4326 }) ∧
    ((lat = "" ∨ lon = "") → g = none) := by
  constructor
  · intro h1 h2
    unfold makeLocation nullif at h
    rw [if_neg h1, if_neg h2] at h
    cases hx : parsePgDouble lon with
    | none => simp [hx] at h
    | some x =>
      cases hy : parsePgDouble lat with
      | none => simp [hx, hy] at h
      | some y =>
        simp [hx, hy, st_setSRID, st_makePoint] at h
        exact ⟨x, y, rfl, rfl, by simp [← h]⟩
  · intro hc
    unfold makeLocation nullif at h
    rcases hc with hc | hc
    · rw [if_pos hc] at h
      by_cases hlo : lon = "" <;> simp [hlo] at h <;> simp [h]
    · rw [if_pos hc] at h
      by_cases hla : lat = "" <;> simp [hla] at h <;> simp [h]

theorem nycTransformRow_ok_parts (r : NycStagingRow) (k : Option Int) (v : NycRow)
    (h : nycTransformRow r = .ok (k, v)) :
    castBigint r.collision_id = .ok k ∧
    makeLocation r.latitude r.longitude = .ok v.location := by
  unfold nycTransformRow at h
  simp only [bind, Except.bind] at h
  repeat' split at h
  all_goals try exact Except.noConfusion h
  simp only [Except.ok.injEq, Prod.mk.injEq] at h
  obtain ⟨rfl, rfl⟩ := h
  simp_all

theorem caCrashesTransformRow_ok_parts (r : CaCrashesStagingRow) (k : Option Int)
    (v : CaCrashesRow) (h : caCrashesTransformRow r = .ok (k, v)) :
    castBigint r.collision_id = .ok k ∧
    makeLocation r.latitude r.longitude = .ok v.location ∧
    v.is_preliminary = castBool r.is_preliminary := by
  unfold caCrashesTransformRow at h
  simp only [bind, Except.bind] at h
  repeat' split at h
  all_goals try exact Except.noConfusion h
  simp only [Except.ok.injEq, Prod.mk.injEq] at h
  obtain ⟨rfl, rfl⟩ := h
  simp_all

theorem caPartiesTransformRow_ok_parts (r : CaPartiesStagingRow) (k : Option Int)
    (v : CaPartiesRow) (h : caPartiesTransformRow r = .ok (k, v)) :
    castBigint r.party_id = .ok k ∧
    v.is_at_fault = castBool r.is_at_fault := by
  unfold caPartiesTransformRow at h
  simp only [bind, Except.bind] at h
  repeat' split at h
  all_goals try exact Except.noConfusion h
  simp only [Except.ok.injEq, Prod.mk.injEq] at h
  obtain ⟨rfl, rfl⟩ := h
  simp_all

/-! ## Claim theorems -/

/-- C1: For every staging row that the merge statement accepts, the
destination geometry column is the SRID-4326 point constructed from
(longitude, latitude) in that argument order whenever both coordinate text
fields are non-empty, and NULL whenever either is empty — in both the
nyc_crashes and the ca_crashes transform. -/
theorem claim_C1_geometry_point :
    (∀ (r : NycStagingRow) (k : Option Int) (v : NycRow),
        nycTransformRow r = .ok (k, v) →
        (r.latitude ≠ "" → r.longitude ≠ "" →
          ∃ x y, parsePgDouble r.longitude = some x ∧ parsePgDouble r.latitude = some y ∧
            v.location = some { x := x, y := y, srid := 4326 }) ∧
        ((r.latitude = "" ∨ r.longitude = "") → v.location = none)) ∧
    (∀ (r : CaCrashesStagingRow) (k : Option Int) (v : CaCrashesRow),
        caCrashesTransformRow r = .ok (k, v) →
        (r.latitude ≠ "" → r.longitude ≠ "" →
          ∃ x y, parsePgDouble r.longitude = some x ∧ parsePgDouble r.latitude = some y ∧
            v.location = some { x := x, y := y, srid := 4326 }) ∧
        ((r.latitude = "" ∨ r.longitude = "") → v.location = none)) := by
  constructor
  · intro r k v h
    exact makeLocation_ok_spec _ _ _ (nycTransformRow_ok_parts r k v h).2
  · intro r k v h
    exact makeLocation_ok_spec _ _ _ (caCrashesTransformRow_ok_parts r k v h).2.1

/-- Witness for C1: concrete rows with latitude 2 and longitude 3 produce
the point (3, 2) with SRID 4326; a blank row produces a NULL geometry. -/
theorem claim_C1_geometry_point_witness :
    (∃ x y, parsePgDouble nycCoordStaging.longitude = some x ∧
      parsePgDouble nycCoordStaging.latitude = some y ∧
      nycCoordTarget.location = some { x := x, y := y, srid := 4326 }) ∧
    (∃ x y, parsePgDouble caCrashesSampleStaging.longitude = some x ∧
      parsePgDouble caCrashesSampleStaging.latitude = some y ∧
      caCrashesSampleTarget.location = some { x := x, y := y, srid := 4326 }) ∧
    nycRowAllNull.location = none := by
  refine ⟨?_, ?_, ?_⟩
  · exact (claim_C1_geometry_point.1 nycCoordStaging (some 7) nycCoordTarget rfl).1
      (by decide) (by decide)
  · exact (claim_C1_geometry_point.2 caCrashesSampleStaging (some 7)
      caCrashesSampleTarget rfl).1 (by decide) (by decide)
  · exact (claim_C1_geometry_point.1 blankNycStaging none nycRowAllNull rfl).2
      (Or.inl rfl)

/-- C2 (code bug): a staging row whose primary-key field is empty is
silently excluded by the WHERE clause in the nyc_crashes,
ca_injuredwitnesspassengers and ca_parties merges, but the ca_crashes merge
has no such filter: there the row reaches the INSERT with a NULL key and
the statement raises a not-null violation instead of excluding the row. -/
theorem claim_C2_empty_pk_behavior :
    populate_ca_crashes [blankCaCrashesStaging] [] =
      .error "null value in primary key column violates not-null constraint" ∧
    load_nyc_dataset_merge [blankNycStaging] [] = .ok [] ∧
    populate_ca_injuredwitnesspassengers [blankCaIwpStaging] [] = .ok [] ∧
    populate_ca_parties [blankCaPartiesStaging] [] = .ok [] :=
  ⟨rfl, rfl, rfl, rfl⟩

/-- C8: every boolean destination column is computed by first applying
empty-string-to-null normalization and then comparing with the literal
string True: empty gives NULL, the exact string True gives true, any other
non-empty string gives false; the transforms store exactly this value. -/
theorem claim_C8_boolean_cast :
    castBool "" = none ∧ castBool "True" = some true ∧
    (∀ s, s ≠ "" → s ≠ "True" → castBool s = some false) ∧
    (∀ (r : CaCrashesStagingRow) (k : Option Int) (v : CaCrashesRow),
        caCrashesTransformRow r = .ok (k, v) →
        v.is_preliminary = castBool r.is_preliminary) ∧
    (∀ (r : CaPartiesStagingRow) (k : Option Int) (v : CaPartiesRow),
        caPartiesTransformRow r = .ok (k, v) →
        v.is_at_fault = castBool r.is_at_fault) := by
  refine ⟨rfl, rfl, ?_, ?_, ?_⟩
  · intro s h1 h2
    simp [castBool, nullif, h1, h2]
  · intro r k v h
    exact (caCrashesTransformRow_ok_parts r k v h).2.2
  · intro r k v h
    exact (caPartiesTransformRow_ok_parts r k v h).2

/-- Witness for C8: the string False casts to false, and the sample
transforms store the cast booleans. -/
theorem claim_C8_boolean_cast_witness :
    castBool "False" = some false ∧
    caCrashesSampleTarget.is_preliminary = castBool caCrashesSampleStaging.is_preliminary ∧
    caPartiesSampleTarget.is_at_fault = castBool caPartiesSampleStaging.is_at_fault := by
  refine ⟨?_, ?_, ?_⟩
  · exact claim_C8_boolean_cast.2.2.1 "False" (by decide) (by decide)
  · exact claim_C8_boolean_cast.2.2.2.1 caCrashesSampleStaging (some 7)
      caCrashesSampleTarget rfl
  · exact claim_C8_boolean_cast.2.2.2.2 caPartiesSampleStaging (some 9)
      caPartiesSampleTarget rfl

/-- C10: the California loader only ever loads the three filenames of
CA_TABLE_MAPPING; a mapped filename absent from CA_DATA_KEYS is skipped
(and skipping leaves the run successful and the tables unchanged), and a
configured key absent from the mapping is never loaded. -/
theorem claim_C10_ca_mapping :
    CA_TABLE_MAPPING.map Prod.fst =
      ["2025crashes.csv", "2025injuredwitnesspassengers.csv", "2025parties.csv"] ∧
    (∀ (keys : List String) (p : String × String),
        p ∈ caFilesLoaded keys → p ∈ CA_TABLE_MAPPING) ∧
    (∀ (keys : List String) (p : String × String),
        p ∈ CA_TABLE_MAPPING → p.1 ∉ keys → p ∉ caFilesLoaded keys) ∧
    (∀ (keys : List String) (f : String),
        f ∈ keys → f ∉ CA_TABLE_MAPPING.map Prod.fst →
        ∀ tbl, (f, tbl) ∉ caFilesLoaded keys) ∧
    (∀ (src : SourceData) (db : DbState), src.caDataKeys = [] →
        load_california_datasets_rows src db = .ok db) := by
  refine ⟨rfl, ?_, ?_, ?_, ?_⟩
  · intro keys p hp
    exact (List.mem_filter.mp hp).1
  · intro keys p _ hnot hmem
    exact hnot (by simpa using (List.mem_filter.mp hmem).2)
  · intro keys f _ hnotmap tbl hmem
    exact hnotmap (List.mem_map_of_mem Prod.fst ((List.mem_filter.mp hmem).1))
  · intro src db h
    simp [load_california_datasets_rows, h, bind, Except.bind]

/-- Witness for C10 at concrete key lists. -/
theorem claim_C10_ca_mapping_witness :
    (("2025crashes.csv", "ca_crashes") ∈ CA_TABLE_MAPPING) ∧
    (("2025parties.csv", "ca_parties") ∉ caFilesLoaded ["2025crashes.csv"]) ∧
    (∀ tbl, ("other.csv", tbl) ∉ caFilesLoaded ["other.csv"]) ∧
    load_california_datasets_rows { emptySource with caDataKeys := [] } emptyDb =
      .ok emptyDb := by
  refine ⟨?_, ?_, ?_, ?_⟩
  · exact claim_C10_ca_mapping.2.1 ["2025crashes.csv"] _ (by decide)
  · exact claim_C10_ca_mapping.2.2.1 ["2025crashes.csv"] _ (by decide) (by decide)
  · exact claim_C10_ca_mapping.2.2.2.1 ["other.csv"] "other.csv" (by decide) (by decide)
  · exact claim_C10_ca_mapping.2.2.2.2 _ emptyDb rfl



/-- C3: in the nyc_crashes merge, a staging row whose key conflicts with an
existing destination row overwrites all non-key columns of that row with
the incoming values: the destination row for that key becomes exactly the
transformed incoming row, the row count is unchanged (no duplicate), and
every other row is untouched. -/
theorem claim_C3_nyc_last_load_wins :
    ∀ (t : Table NycRow) (r : NycStagingRow) (k : Int) (v : NycRow),
      nycTransformRow r = .ok (some k, v) →
      r.collision_id ≠ "" →
      (lookupKey t k).isSome →
      ∃ t2, load_nyc_dataset_merge [r] t = .ok t2 ∧
        lookupKey t2 k = some v ∧
        t2.length = t.length ∧
        ∀ k2, k2 ≠ k → lookupKey t2 k2 = lookupKey t k2 := by
  intro t r k v htr hkey hmem
  have hlist : [r].filter (fun r2 => (nullif r2.collision_id).isSome) = [r] := by
    simp [List.filter, nullif, hkey]
  refine ⟨upsertLastWins t k v, ?_, upsertLastWins_lookup_self t k v,
    upsertLastWins_length_of_mem t k v hmem,
    fun k2 hk2 => upsertLastWins_lookup_ne t k k2 v hk2⟩
  unfold load_nyc_dataset_merge
  rw [hlist, exceptMapList_singleton_ok htr]
  simp [bind, Except.bind, applyDoUpdate_singleton]

/-- Witness for C3: re-importing row 7 with only the borough changed
updates the stored row to the new borough without creating a duplicate. -/
theorem claim_C3_nyc_last_load_wins_witness :
    ∃ t2, load_nyc_dataset_merge [nycBoroughStaging] [(7, nycBoroughTargetOld)] = .ok t2 ∧
      lookupKey t2 7 = some nycBoroughTargetNew ∧
      t2.length = 1 ∧
      ∀ k2, k2 ≠ 7 → lookupKey t2 k2 = lookupKey [(7, nycBoroughTargetOld)] k2 :=
  claim_C3_nyc_last_load_wins [(7, nycBoroughTargetOld)] nycBoroughStaging 7
    nycBoroughTargetNew rfl (by decide) (by decide)

/-- C4: in all three California merges (ON CONFLICT DO NOTHING), a staging
row whose key conflicts with an existing destination row leaves the whole
destination table unchanged, even when the incoming values differ. -/
theorem claim_C4_ca_first_load_wins :
    (∀ (t : Table CaCrashesRow) (r : CaCrashesStagingRow) (k : Int) (v : CaCrashesRow),
        caCrashesTransformRow r = .ok (some k, v) →
        (lookupKey t k).isSome →
        populate_ca_crashes [r] t = .ok t) ∧
    (∀ (t : Table CaIwpRow) (r : CaIwpStagingRow) (k : Int) (v : CaIwpRow),
        caIwpTransformRow r = .ok (some k, v) →
        r.injured_wit_pass_id ≠ "" →
        (lookupKey t k).isSome →
        populate_ca_injuredwitnesspassengers [r] t = .ok t) ∧
    (∀ (t : Table CaPartiesRow) (r : CaPartiesStagingRow) (k : Int) (v : CaPartiesRow),
        caPartiesTransformRow r = .ok (some k, v) →
        r.party_id ≠ "" →
        (lookupKey t k).isSome →
        populate_ca_parties [r] t = .ok t) := by
  refine ⟨?_, ?_, ?_⟩
  · intro t r k v htr hmem
    unfold populate_ca_crashes
    rw [exceptMapList_singleton_ok htr]
    simp [bind, Except.bind, applyDoNothing_singleton, insertFirstWins_of_mem t k v hmem]
  · intro t r k v htr hkey hmem
    have hlist : [r].filter (fun r2 => (nullif r2.injured_wit_pass_id).isSome) = [r] := by
      simp [List.filter, nullif, hkey]
    unfold populate_ca_injuredwitnesspassengers
    rw [hlist, exceptMapList_singleton_ok htr]
    simp [bind, Except.bind, applyDoNothing_singleton, insertFirstWins_of_mem t k v hmem]
  · intro t r k v htr hkey hmem
    have hlist : [r].filter (fun r2 => (nullif r2.party_id).isSome) = [r] := by
      simp [List.filter, nullif, hkey]
    unfold populate_ca_parties
    rw [hlist, exceptMapList_singleton_ok htr]
    simp [bind, Except.bind, applyDoNothing_singleton, insertFirstWins_of_mem t k v hmem]

/-- Witness for C4: each California table keeps its stored row when a
conflicting row with different values is re-imported. -/
theorem claim_C4_ca_first_load_wins_witness :
    populate_ca_crashes [caCrashesSampleStaging] [(7, caCrashesRowAllNull)] =
      .ok [(7, caCrashesRowAllNull)] ∧
    populate_ca_injuredwitnesspassengers [caIwpSampleStaging] [(5, caIwpRowAllNull)] =
      .ok [(5, caIwpRowAllNull)] ∧
    populate_ca_parties [caPartiesSampleStaging] [(9, caPartiesRowAllNull)] =
      .ok [(9, caPartiesRowAllNull)] := by
  refine ⟨?_, ?_, ?_⟩
  · exact claim_C4_ca_first_load_wins.1 [(7, caCrashesRowAllNull)]
      caCrashesSampleStaging 7 caCrashesSampleTarget rfl (by decide)
  · exact claim_C4_ca_first_load_wins.2.1 [(5, caIwpRowAllNull)]
      caIwpSampleStaging 5 caIwpRowAllNull rfl (by decide) (by decide)
  · exact claim_C4_ca_first_load_wins.2.2 [(9, caPartiesRowAllNull)]
      caPartiesSampleStaging 9 caPartiesSampleTarget rfl (by decide) (by decide)

/-- C6: running the full pipeline twice over the same source produces the
same destination contents as running it once (the run ignores the previous
destination state because ensure_database_exists recreates the database),
and the upsert updates an existing key in place instead of duplicating
it. -/
theorem claim_C6_pipeline_idempotent :
    (∀ (src : SourceData) (db1 db2 : DbState),
        run_pipeline src db1 = run_pipeline src db2) ∧
    (∀ (src : SourceData) (db s : DbState),
        run_pipeline src db = .ok s → run_pipeline src s = .ok s) ∧
    (∀ (t : Table NycRow) (k : Int) (v : NycRow),
        (lookupKey t k).isSome →
        lookupKey (upsertLastWins t k v) k = some v ∧
        (upsertLastWins t k v).length = t.length) := by
  refine ⟨fun src db1 db2 => rfl, ?_, ?_⟩
  · intro src db s h
    calc run_pipeline src s = run_pipeline src db := rfl
    _ = .ok s := h
  · intro t k v hmem
    exact ⟨upsertLastWins_lookup_self t k v, upsertLastWins_length_of_mem t k v hmem⟩

/-- Witness for C6: a second run over the same source reproduces the state
of the first run, and upserting an existing key keeps the row count at
one. -/
theorem claim_C6_pipeline_idempotent_witness :
    run_pipeline emptySource emptyDb = .ok emptyDb ∧
    lookupKey (upsertLastWins [(7, nycBoroughTargetOld)] 7 nycBoroughTargetNew) 7 =
      some nycBoroughTargetNew ∧
    (upsertLastWins [(7, nycBoroughTargetOld)] 7 nycBoroughTargetNew).length = 1 := by
  refine ⟨?_, ?_, ?_⟩
  · exact claim_C6_pipeline_idempotent.2.1 emptySource emptyDb emptyDb rfl
  · exact (claim_C6_pipeline_idempotent.2.2 [(7, nycBoroughTargetOld)] 7
      nycBoroughTargetNew (by decide)).1
  · exact (claim_C6_pipeline_idempotent.2.2 [(7, nycBoroughTargetOld)] 7
      nycBoroughTargetNew (by decide)).2



/-- C5 counterexample: when the import fails and the final staging drop also
fails, the staging table remains and the propagated error is the drop error,
not the original import error — refuting that after any failed load no
staging table remains and the original error is the one propagated. -/
theorem claim_C5_counterexample :
    (stagedLoadBody false stagedLoadImportAndFinalDropFail).2.2 = some "import failed" ∧
    (stagedLoadRun false stagedLoadImportAndFinalDropFail).stagingExists = true ∧
    (stagedLoadRun false stagedLoadImportAndFinalDropFail).propagated ≠
      some "import failed" := by
  decide

/-- C5 (amended): for every dataset file load the final staging drop is
attempted unconditionally, whether the import/merge succeeded or raised;
whenever the drop itself succeeds, no staging table remains and the
original error of the try block (if any) is the one propagated.  When the
drop itself fails, the drop error propagates in its place. -/
theorem claim_C5_cleanup_always_attempted :
    ∀ (init : Bool) (env : StagedLoadEnv),
      "final drop staging" ∈ (stagedLoadRun init env).attempted ∧
      (env.finalDropFails = false →
        (stagedLoadRun init env).stagingExists = false ∧
        (stagedLoadRun init env).propagated = (stagedLoadBody init env).2.2) := by
  intro init env
  constructor
  · unfold stagedLoadRun
    split <;> simp
  · intro hd
    unfold stagedLoadRun
    rw [hd]
    simp

/-- Witness for C5 (amended) at a fully successful load. -/
theorem claim_C5_cleanup_always_attempted_witness :
    "final drop staging" ∈ (stagedLoadRun false stagedLoadAllOk).attempted ∧
    (stagedLoadRun false stagedLoadAllOk).stagingExists = false ∧
    (stagedLoadRun false stagedLoadAllOk).propagated =
      (stagedLoadBody false stagedLoadAllOk).2.2 := by
  refine ⟨(claim_C5_cleanup_always_attempted false stagedLoadAllOk).1, ?_, ?_⟩
  · exact ((claim_C5_cleanup_always_attempted false stagedLoadAllOk).2 rfl).1
  · exact ((claim_C5_cleanup_always_attempted false stagedLoadAllOk).2 rfl).2

/-- C7 counterexample: a non-empty, non-numeric string in an integer column
makes the merge statement itself raise — such a row-level issue is a
pipeline error, not a value silently null-coalesced away. -/
theorem claim_C7_counterexample :
    load_nyc_dataset_merge [badIntNycStaging] [] =
      .error "invalid input syntax for type integer" := rfl

/-- C7 (amended): the null-coalescing rules only absorb empty strings:
every cast maps the empty string to NULL without error (and boolean
columns never raise), but a non-empty string that does not parse as an
integer makes the integer cast, and with it the whole merge statement,
raise. -/
theorem claim_C7_unparseable_value_raises :
    (castBigint "" = .ok none ∧ castInteger "" = .ok none ∧
      castDouble "" = .ok none ∧ castTimestamp "" = .ok none ∧
      castBool "" = none) ∧
    (∀ s, s ≠ "" → parsePgInt s = none →
      castInteger s = .error "invalid input syntax for type integer") ∧
    (∀ (r : NycStagingRow) (t : Table NycRow),
      r.collision_id ≠ "" →
      r.number_of_persons_injured ≠ "" →
      parsePgInt r.number_of_persons_injured = none →
      ∃ e, load_nyc_dataset_merge [r] t = .error e) := by
  refine ⟨⟨rfl, rfl, rfl, rfl, rfl⟩, ?_, ?_⟩
  · intro s h1 h2
    simp [castInteger, nullif, h1, h2]
  · intro r t hkey hinj hparse
    have hn : castInteger r.number_of_persons_injured =
        .error "invalid input syntax for type integer" := by
      simp [castInteger, nullif, hinj, hparse]
    have htrans : ∃ e, nycTransformRow r = .error e := by
      cases h1 : castBigint r.collision_id with
      | error e => exact ⟨e, by simp [nycTransformRow, bind, Except.bind, h1]⟩
      | ok cid =>
        cases h2 : castTimestamp r.crash_date with
        | error e => exact ⟨e, by simp [nycTransformRow, bind, Except.bind, h1, h2]⟩
        | ok cd =>
          cases h3 : castDouble r.latitude with
          | error e => exact ⟨e, by simp [nycTransformRow, bind, Except.bind, h1, h2, h3]⟩
          | ok la =>
            cases h4 : castDouble r.longitude with
            | error e =>
              exact ⟨e, by simp [nycTransformRow, bind, Except.bind, h1, h2, h3, h4]⟩
            | ok lo =>
              cases h5 : makeLocation r.latitude r.longitude with
              | error e =>
                exact ⟨e, by simp [nycTransformRow, bind, Except.bind, h1, h2, h3, h4, h5]⟩
              | ok loc =>
                exact ⟨"invalid input syntax for type integer",
                  by simp [nycTransformRow, bind, Except.bind, h1, h2, h3, h4, h5, hn]⟩
    obtain ⟨e, he⟩ := htrans
    have hlist : [r].filter (fun r2 => (nullif r2.collision_id).isSome) = [r] := by
      simp [List.filter, nullif, hkey]
    refine ⟨e, ?_⟩
    unfold load_nyc_dataset_merge
    rw [hlist, exceptMapList_cons_error [] he]
    simp [bind, Except.bind]

/-- Witness for C7 (amended) at the string abc. -/
theorem claim_C7_unparseable_value_raises_witness :
    castInteger "abc" = .error "invalid input syntax for type integer" ∧
    (∃ e, load_nyc_dataset_merge [badIntNycStaging] [] = .error e) := by
  constructor
  · exact claim_C7_unparseable_value_raises.2.1 "abc" (by decide) (by decide)
  · exact claim_C7_unparseable_value_raises.2.2 badIntNycStaging []
      (by decide) (by decide) (by decide)

/-- C9: the handler needs no positional input (the request type is just an
optional field); a Delete request returns the skipped status whatever the
best-effort cleanup does and never runs a load step; any other request
returns the complete status when the whole load sequence succeeds and
propagates an error otherwise. -/
theorem claim_C9_handler_dispatch :
    ∀ (env : HandlerEnv) (rt : Option String),
      (rt = some "Delete" → handler rt env = (["cleanup"], .ok "skipped")) ∧
      (rt ≠ some "Delete" →
        (handlerLoadOk env → handler rt env = (handlerLoadSteps, .ok "complete")) ∧
        (¬ handlerLoadOk env → ∃ e, (handler rt env).2 = .error e) ∧
        "cleanup" ∉ (handler rt env).1) := by
  intro env rt
  constructor
  · intro h
    simp [handler, h]
  · intro h
    refine ⟨?_, ?_, ?_⟩
    · intro hok
      obtain ⟨h1, h2, h3, h4, h5, h6, h7⟩ := hok
      simp [handler, h, h1, h2, h3, h4, h5, h6, h7]
    · intro hnok
      by_cases h1 : env.waitFails = true
      · exact ⟨"wait for cluster failed", by simp [handler, h, h1]⟩
      by_cases h2 : env.ensureDatabaseFails = true
      · exact ⟨"ensure database failed", by simp [handler, h, h1, h2]⟩
      by_cases h3 : env.extensionsFails = true
      · exact ⟨"enable extensions failed", by simp [handler, h, h1, h2, h3]⟩
      by_cases h4 : env.createNycTableFails = true
      · exact ⟨"create nyc table failed", by simp [handler, h, h1, h2, h3, h4]⟩
      by_cases h5 : env.createCaTablesFails = true
      · exact ⟨"create ca tables failed", by simp [handler, h, h1, h2, h3, h4, h5]⟩
      by_cases h6 : env.loadNycFails = true
      · exact ⟨"load nyc failed", by simp [handler, h, h1, h2, h3, h4, h5, h6]⟩
      by_cases h7 : env.loadCaFails = true
      · exact ⟨"load ca failed", by simp [handler, h, h1, h2, h3, h4, h5, h6, h7]⟩
      exact absurd
        ⟨by simpa using h1, by simpa using h2, by simpa using h3, by simpa using h4,
         by simpa using h5, by simpa using h6, by simpa using h7⟩ hnok
    · unfold handler
      rw [if_neg h]
      repeat' split
      all_goals decide
  
/-- Witness for C9: a Delete request with failing cleanup still returns
skipped; a fully successful non-Delete run returns complete; a failing
load propagates an error; and the load path never runs cleanup. -/
theorem claim_C9_handler_dispatch_witness :
    handler (some "Delete") handlerCleanupFailsEnv = (["cleanup"], .ok "skipped") ∧
    handler none handlerAllOk = (handlerLoadSteps, .ok "complete") ∧
    (∃ e, (handler none handlerLoadNycFailsEnv).2 = .error e) ∧
    "cleanup" ∉ (handler none handlerAllOk).1 := by
  refine ⟨?_, ?_, ?_, ?_⟩
  · exact (claim_C9_handler_dispatch handlerCleanupFailsEnv (some "Delete")).1 rfl
  · exact ((claim_C9_handler_dispatch handlerAllOk none).2 (by decide)).1
      ⟨rfl, rfl, rfl, rfl, rfl, rfl, rfl⟩
  · exact ((claim_C9_handler_dispatch handlerLoadNycFailsEnv none).2 (by decide)).2.1
      (by decide)
  · exact ((claim_C9_handler_dispatch handlerAllOk none).2 (by decide)).2.2


end NYCrashes
